import Mathlib

/-!
Shallow embedding of the compliance-scoring core of the
`hackathon_compliance_copilot` backend, together with theorems checking
its natural-language specification.

The embedding follows the TypeScript sources:
  * `compliance/compliance.service.ts` (audit-check pipeline),
  * the regulatory knowledge service (gap analysis / rule classification),
  * `third-party-apps/third-party-app-risk.service.ts` (app risk model),
  * `monitoring/monitoring.service.ts` (health-check aggregator).

JavaScript numbers are modelled as `ℚ` where fractional weights occur and
as `ℤ` elsewhere; `Math.round` is floor of `x + 1/2`; division that can
produce `NaN`/`Infinity` (denominator `0`) is modelled with `Option`.
-/

/-- `Math.round` for a finite JS number: round half toward positive infinity. -/
def jsRound (q : ℚ) : ℤ := Rat.floor (q + 1/2)

theorem jsRound_eq_floor (q : ℚ) : jsRound q = ⌊q + 1/2⌋ := rfl

/-- JS division, `none` standing for the non-finite results (`0/0 = NaN`,
`x/0 = ±Infinity`). -/
def jsDiv (a b : ℚ) : Option ℚ := if b = 0 then none else some (a / b)

/-- `Math.round` lifted over possibly non-finite values
(`Math.round(NaN)` is `NaN`). -/
def jsRoundOpt : Option ℚ → Option ℤ := Option.map jsRound

/-- JS falsiness of a nullable string (`null`, `undefined` and `''` are falsy). -/
def jsFalsyStr : Option String → Bool
  | none => true
  | some s => s = ""

/-- JS falsiness of a nullable number (`null`, `undefined` and `0` are falsy). -/
def jsFalsyNum : Option Int → Bool
  | none => true
  | some n => n = 0

/-- Finding severities (`compliance.service.ts`, `AuditFinding`). -/
inductive Severity where
  | low | medium | high | critical
deriving DecidableEq, Repr

/-- Recommendation priorities (`AuditRecommendation`). -/
inductive RecPriority where
  | low | medium | high | urgent
deriving DecidableEq, Repr

/-- A single audit finding. -/
structure AuditFinding where
  category : String
  severity : Severity
  description : String
  impact : String
deriving DecidableEq, Repr

/-- A single audit recommendation. -/
structure AuditRecommendation where
  priority : RecPriority
  title : String
  description : String
  actionItems : List String
  estimatedEffort : String
deriving DecidableEq, Repr

/-- Tri-state compliance status returned by the audit pipeline. -/
inductive ComplianceStatus where
  | compliant | non_compliant | under_review
deriving DecidableEq, Repr

/-- Result of `performAuditChecks`. -/
structure AuditResult where
  score : Int
  status : ComplianceStatus
  findings : List AuditFinding
  recommendations : List AuditRecommendation
deriving DecidableEq, Repr

/-- A stored privacy policy; only the publication status is read by the checks. -/
structure PrivacyPolicy where
  status : String
deriving DecidableEq, Repr

/-- A stored data-collection point; the checks read the legal basis and the
retention period (both nullable columns). -/
structure DataCollectionPoint where
  legalBasis : Option String
  retentionPeriod : Option Int
deriving DecidableEq, Repr

/-- Result of one audit check (`{ findings, recommendations, deduction }`). -/
structure CheckResult where
  findings : List AuditFinding
  recommendations : List AuditRecommendation
  deduction : Int
deriving DecidableEq, Repr

/-- `checkPrivacyPolicy`: policies are fetched ordered by `createdAt DESC`,
so the head of the list is the latest policy. -/
def checkPrivacyPolicy (policies : List PrivacyPolicy) : CheckResult :=
  match policies with
  | [] =>
    { findings := [
        { category := "Privacy Policy"
          severity := Severity.critical
          description := "No privacy policy found"
          impact := "Legal requirement violation - GDPR Article 13/14" }]
      recommendations := [
        { priority := RecPriority.urgent
          title := "Create Privacy Policy"
          description := "Generate a GDPR-compliant privacy policy"
          actionItems := ["Use AI policy generator", "Review legal requirements",
            "Publish policy"]
          estimatedEffort := "2-4 hours" }]
      deduction := 30 }
  | latestPolicy :: _ =>
    if latestPolicy.status ≠ "published" then
      { findings := [
          { category := "Privacy Policy"
            severity := Severity.high
            description := "Privacy policy exists but is not published"
            impact := "Policy not accessible to data subjects" }]
        recommendations := []
        deduction := 15 }
    else
      { findings := [], recommendations := [], deduction := 0 }

/-- `checkDataMapping`. -/
def checkDataMapping (dataPoints : List DataCollectionPoint) : CheckResult :=
  if dataPoints.length = 0 then
    { findings := [
        { category := "Data Mapping"
          severity := Severity.high
          description := "No data collection points mapped"
          impact := "Cannot demonstrate data processing compliance" }]
      recommendations := [
        { priority := RecPriority.high
          title := "Map Data Collection Points"
          description := "Identify and document all personal data collection"
          actionItems := ["Audit data collection forms", "Document processing purposes",
            "Define legal basis"]
          estimatedEffort := "4-8 hours" }]
      deduction := 25 }
  else
    { findings := [], recommendations := [], deduction := 0 }

/-- `checkLegalBasis`. -/
def checkLegalBasis (dataPoints : List DataCollectionPoint) : CheckResult :=
  let pointsWithoutBasis := dataPoints.filter (fun point => jsFalsyStr point.legalBasis)
  if 0 < pointsWithoutBasis.length then
    { findings := [
        { category := "Legal Basis"
          severity := Severity.critical
          description := toString pointsWithoutBasis.length ++
            " data collection points lack legal basis"
          impact := "GDPR Article 6 violation - unlawful processing" }]
      recommendations := []
      deduction := 20 }
  else
    { findings := [], recommendations := [], deduction := 0 }

/-- `checkRetentionPolicies`. -/
def checkRetentionPolicies (dataPoints : List DataCollectionPoint) : CheckResult :=
  let pointsWithoutRetention :=
    dataPoints.filter (fun point => jsFalsyNum point.retentionPeriod)
  if 0 < pointsWithoutRetention.length then
    { findings := [
        { category := "Data Retention"
          severity := Severity.medium
          description := toString pointsWithoutRetention.length ++
            " data points lack retention policies"
          impact := "GDPR Article 5(1)(e) - storage limitation principle" }]
      recommendations := []
      deduction := 10 }
  else
    { findings := [], recommendations := [], deduction := 0 }

/-- `determineComplianceStatus`. -/
def determineComplianceStatus (score : Int) : ComplianceStatus :=
  if 80 ≤ score then .compliant
  else if 60 ≤ score then .under_review
  else .non_compliant

/-- `performAuditChecks`, acting on the merchant's fetched policies and
data-collection points. -/
def performAuditChecks (policies : List PrivacyPolicy)
    (dataPoints : List DataCollectionPoint) : AuditResult :=
  let policyCheck := checkPrivacyPolicy policies
  let dataCheck := checkDataMapping dataPoints
  let legalCheck := checkLegalBasis dataPoints
  let retentionCheck := checkRetentionPolicies dataPoints
  let totalScore : Int := 100 - policyCheck.deduction - dataCheck.deduction -
    legalCheck.deduction - retentionCheck.deduction
  let finalScore := max 0 (min 100 totalScore)
  { score := finalScore,
    status := determineComplianceStatus finalScore,
    findings := policyCheck.findings ++ dataCheck.findings ++
      legalCheck.findings ++ retentionCheck.findings,
    recommendations := policyCheck.recommendations ++ dataCheck.recommendations ++
      legalCheck.recommendations ++ retentionCheck.recommendations }

/-- Persisted audit record (`ComplianceAudit` entity, fields touched by
`runComplianceAudit`). -/
structure AuditRecord where
  auditType : String
  status : String
  riskScore : Option Int := none
  findings : List AuditFinding := []
  recommendations : List AuditRecommendation := []
  auditData : Option String := none
deriving DecidableEq, Repr

/-- Observable effect of one `runComplianceAudit` call: every audit-record
save in order, every `updateComplianceScore` call, and the value returned
(or the exception re-raised) to the caller. -/
structure AuditRunEffect where
  savedAudits : List AuditRecord
  scoreUpdates : List (String × Int)
  result : Except String AuditRecord
deriving Repr

/-- `runComplianceAudit`: the checks may throw, which is modelled by the
`Except`-valued `checkResult` argument (the value `performAuditChecks`
would produce, or the thrown error's message). -/
def runComplianceAudit (merchantId : String)
    (checkResult : Except String AuditResult) : AuditRunEffect :=
  let audit0 : AuditRecord := { auditType := "comprehensive", status := "processing" }
  match checkResult with
  | Except.ok auditResult =>
    let audit1 : AuditRecord :=
      { audit0 with
        status := "completed"
        riskScore := some (100 - auditResult.score)
        findings := auditResult.findings
        recommendations := auditResult.recommendations }
    { savedAudits := [audit0, audit1],
      scoreUpdates := [(merchantId, auditResult.score)],
      result := Except.ok audit1 }
  | Except.error e =>
    let audit1 : AuditRecord :=
      { audit0 with
        status := "failed"
        auditData := some e }
    { savedAudits := [audit0, audit1],
      scoreUpdates := [],
      result := Except.error e }

theorem checkPrivacyPolicy_deduction (policies : List PrivacyPolicy) :
    (checkPrivacyPolicy policies).deduction =
      match policies with
      | [] => 30
      | p :: _ => if p.status ≠ "published" then 15 else 0 := by
  cases policies with
  | nil => rfl
  | cons p rest =>
    simp only [checkPrivacyPolicy]
    split <;> simp_all

theorem checkDataMapping_deduction (dataPoints : List DataCollectionPoint) :
    (checkDataMapping dataPoints).deduction =
      if dataPoints.length = 0 then 25 else 0 := by
  simp only [checkDataMapping]
  split <;> simp_all

theorem checkLegalBasis_deduction (dataPoints : List DataCollectionPoint) :
    (checkLegalBasis dataPoints).deduction =
      if 0 < (dataPoints.filter (fun p => jsFalsyStr p.legalBasis)).length
      then 20 else 0 := by
  simp only [checkLegalBasis]
  split <;> simp_all

theorem checkRetentionPolicies_deduction (dataPoints : List DataCollectionPoint) :
    (checkRetentionPolicies dataPoints).deduction =
      if 0 < (dataPoints.filter (fun p => jsFalsyNum p.retentionPeriod)).length
      then 10 else 0 := by
  simp only [checkRetentionPolicies]
  split <;> simp_all

theorem determineComplianceStatus_spec (s : Int) :
    (determineComplianceStatus s = .compliant ↔ 80 ≤ s) ∧
    (determineComplianceStatus s = .under_review ↔ 60 ≤ s ∧ s < 80) ∧
    (determineComplianceStatus s = .non_compliant ↔ s < 60) := by
  unfold determineComplianceStatus
  split_ifs <;> simp_all <;> omega

/-- C1: for every combination of trigger conditions of the four audit checks,
`performAuditChecks` returns `score = clamp(100 - Σ triggered deductions, 0, 100)`
and its status is `compliant` iff `score ≥ 80`, `under_review` iff
`60 ≤ score < 80`, and `non_compliant` otherwise. -/
theorem performAuditChecks_score_and_status (policies : List PrivacyPolicy)
    (dataPoints : List DataCollectionPoint) :
    (performAuditChecks policies dataPoints).score =
      max 0 (min 100 (100 -
        ((match policies with
          | [] => (30 : Int)
          | p :: _ => if p.status ≠ "published" then 15 else 0) +
         (if dataPoints.length = 0 then 25 else 0) +
         (if 0 < (dataPoints.filter (fun p => jsFalsyStr p.legalBasis)).length
          then 20 else 0) +
         (if 0 < (dataPoints.filter (fun p => jsFalsyNum p.retentionPeriod)).length
          then 10 else 0)))) ∧
    ((performAuditChecks policies dataPoints).status = .compliant ↔
      80 ≤ (performAuditChecks policies dataPoints).score) ∧
    ((performAuditChecks policies dataPoints).status = .under_review ↔
      60 ≤ (performAuditChecks policies dataPoints).score ∧
        (performAuditChecks policies dataPoints).score < 80) ∧
    ((performAuditChecks policies dataPoints).status = .non_compliant ↔
      (performAuditChecks policies dataPoints).score < 60) := by
  have hscore : (performAuditChecks policies dataPoints).score =
      max 0 (min 100 (100 - (checkPrivacyPolicy policies).deduction -
        (checkDataMapping dataPoints).deduction -
        (checkLegalBasis dataPoints).deduction -
        (checkRetentionPolicies dataPoints).deduction)) := rfl
  have hstatus : (performAuditChecks policies dataPoints).status =
      determineComplianceStatus (performAuditChecks policies dataPoints).score := rfl
  refine ⟨?_, ?_, ?_, ?_⟩
  · rw [hscore, checkPrivacyPolicy_deduction, checkDataMapping_deduction,
      checkLegalBasis_deduction, checkRetentionPolicies_deduction]
    congr 2
    ring
  · rw [hstatus]; exact (determineComplianceStatus_spec _).1
  · rw [hstatus]; exact (determineComplianceStatus_spec _).2.1
  · rw [hstatus]; exact (determineComplianceStatus_spec _).2.2

/-- C9: a merchant with no privacy policy and zero data-collection points
audits to score `45 = 100 - 30 - 25`, status `non_compliant`, and exactly
two findings: `critical`/`Privacy Policy` and `high`/`Data Mapping`. -/
theorem performAuditChecks_empty_merchant :
    (performAuditChecks [] []).score = 45 ∧
    (performAuditChecks [] []).status = .non_compliant ∧
    (performAuditChecks [] []).findings.length = 2 ∧
    (performAuditChecks [] []).findings.map
        (fun f => (f.category, f.severity)) =
      [("Privacy Policy", Severity.critical), ("Data Mapping", Severity.high)] := by
  refine ⟨rfl, rfl, rfl, rfl⟩

/-- C6: if an exception is thrown while the audit checks execute, the audit
is persisted with status `failed` and the error message in `auditData`, the
exception is re-raised to the caller, and `updateComplianceScore` is not
called; the score update happens only on the success path. -/
theorem runComplianceAudit_failure_path (merchantId : String) (e : String) :
    (runComplianceAudit merchantId (Except.error e)).result = Except.error e ∧
    (runComplianceAudit merchantId (Except.error e)).scoreUpdates = [] ∧
    (runComplianceAudit merchantId (Except.error e)).savedAudits.getLast? =
      some { auditType := "comprehensive", status := "failed", auditData := some e } ∧
    (∀ r : AuditResult, (runComplianceAudit merchantId (Except.ok r)).scoreUpdates =
      [(merchantId, r.score)]) := by
  refine ⟨rfl, rfl, rfl, fun r => rfl⟩

/-! ## Regulatory gap analyzer (regulatory knowledge service) -/

/-- `RegulationType` enum of `regulatory-knowledge.entity.ts`. -/
inductive RegulationType where
  | GDPR | CCPA | PIPEDA | UK_GDPR | LGPD | PDPA
deriving DecidableEq, Repr

/-- `RuleCategory` enum. -/
inductive RuleCategory where
  | DATA_COLLECTION | CONSENT_MANAGEMENT | DATA_RETENTION | DATA_SUBJECT_RIGHTS
  | CROSS_BORDER_TRANSFER | BREACH_NOTIFICATION | PRIVACY_POLICY | COOKIE_MANAGEMENT
deriving DecidableEq, Repr

/-- The string value carried by each `RuleCategory` member at runtime. -/
def categoryValue : RuleCategory → String
  | .DATA_COLLECTION => "data_collection"
  | .CONSENT_MANAGEMENT => "consent_management"
  | .DATA_RETENTION => "data_retention"
  | .DATA_SUBJECT_RIGHTS => "data_subject_rights"
  | .CROSS_BORDER_TRANSFER => "cross_border_transfer"
  | .BREACH_NOTIFICATION => "breach_notification"
  | .PRIVACY_POLICY => "privacy_policy"
  | .COOKIE_MANAGEMENT => "cookie_management"

/-- `ComplianceRequirement` enum. -/
inductive ComplianceRequirement where
  | MANDATORY | RECOMMENDED | OPTIONAL
deriving DecidableEq, Repr

/-- The fields of a `RegulatoryRule` read during gap analysis. -/
structure RegulatoryRule where
  regulation : RegulationType
  category : RuleCategory
  title : String
  requirement : ComplianceRequirement
deriving DecidableEq, Repr

/-- `MerchantData` of the regulatory knowledge service. -/
structure MerchantData where
  businessType : String
  jurisdiction : String
  dataTypes : List String
  currentPolicies : List String
  implementedControls : List String
deriving DecidableEq, Repr

/-- A gap's `currentStatus` value. -/
inductive GapStatus where
  | compliant | partiallyCompliant | non_compliant
deriving DecidableEq, Repr

/-- Risk levels (`RiskLevel` enum of the third-party-app entity, and the
string union used by `ComplianceGap`). -/
inductive RiskLevel where
  | low | medium | high | critical
deriving DecidableEq, Repr

/-- `ComplianceGap`. -/
structure ComplianceGap where
  rule : RegulatoryRule
  currentStatus : GapStatus
  riskLevel : RiskLevel
  actionRequired : String
  deadline : Option Int
deriving DecidableEq, Repr

/-- `getRuleWeight` (values are JS numbers; `ℚ` because partial compliance
contributes `weight * 0.5`). -/
def getRuleWeight : ComplianceRequirement → ℚ
  | .MANDATORY => 10
  | .RECOMMENDED => 5
  | .OPTIONAL => 1

/-- `getRiskScore` (used only for ordering priority actions). -/
def getRiskScore : RiskLevel → Int
  | .critical => 4
  | .high => 3
  | .medium => 2
  | .low => 1

/-- Escalation expression of `analyzeRuleCompliance`:
`riskLevel === 'low' ? 'medium' : riskLevel === 'medium' ? 'high' : 'critical'`. -/
def bumpRiskLevel : RiskLevel → RiskLevel
  | .low => .medium
  | .medium => .high
  | _ => .critical

/-- The (status, risk, action) triple produced by the category `switch` of
`analyzeRuleCompliance`, before the mandatory escalation is applied. -/
structure RuleClassification where
  currentStatus : GapStatus
  riskLevel : RiskLevel
  actionRequired : String
deriving DecidableEq, Repr

/-- The category `switch` of `analyzeRuleCompliance`: starts from
`non_compliant` / `medium` / `"Implement " ++ title` and overrides fields
per category. -/
def classifyRuleCompliance (category : RuleCategory) (title : String)
    (md : MerchantData) : RuleClassification :=
  match category with
  | .PRIVACY_POLICY =>
    if md.currentPolicies.contains "privacy_policy" then
      { currentStatus := .compliant
        riskLevel := .low
        actionRequired := "Review and update privacy policy regularly" }
    else
      { currentStatus := .non_compliant
        riskLevel := .critical
        actionRequired := "Create and publish privacy policy immediately" }
  | .CONSENT_MANAGEMENT =>
    if md.implementedControls.contains "consent_management" then
      { currentStatus := .compliant
        riskLevel := .low
        actionRequired := "Implement " ++ title }
    else
      { currentStatus := .non_compliant
        riskLevel := .high
        actionRequired := "Implement consent management system" }
  | .DATA_SUBJECT_RIGHTS =>
    if md.implementedControls.contains "dsar_workflow" then
      { currentStatus := .partiallyCompliant
        riskLevel := .medium
        actionRequired := "Enhance data subject rights workflow" }
    else
      { currentStatus := .non_compliant
        riskLevel := .high
        actionRequired := "Implement data subject rights management" }
  | .COOKIE_MANAGEMENT =>
    if md.implementedControls.contains "cookie_consent" then
      { currentStatus := .compliant
        riskLevel := .low
        actionRequired := "Implement " ++ title }
    else
      { currentStatus := .non_compliant
        riskLevel := .medium
        actionRequired := "Implement cookie consent management" }
  | other =>
    if md.implementedControls.contains (categoryValue other).toLower then
      { currentStatus := .partiallyCompliant
        riskLevel := .medium
        actionRequired := "Implement " ++ title }
    else
      { currentStatus := .non_compliant
        riskLevel := .medium
        actionRequired := "Implement " ++ title }

/-- `calculateDeadline` (dates in epoch milliseconds). -/
def calculateDeadline (rule : RegulatoryRule) (status : GapStatus)
    (now : Int) : Option Int :=
  if status = .compliant then none
  else
    let daysToAdd : Int :=
      if rule.requirement = .MANDATORY then
        (if status = .non_compliant then 15 else 30)
      else 60
    some (now + daysToAdd * 24 * 60 * 60 * 1000)

/-- `analyzeRuleCompliance`: category classification, then the mandatory
non-compliance escalation, then the deadline. -/
def analyzeRuleCompliance (rule : RegulatoryRule) (md : MerchantData)
    (now : Int) : ComplianceGap :=
  let base := classifyRuleCompliance rule.category rule.title md
  let riskLevel :=
    if rule.requirement = .MANDATORY then
      (if base.currentStatus = .non_compliant then bumpRiskLevel base.riskLevel
       else base.riskLevel)
    else base.riskLevel
  { rule := rule
    currentStatus := base.currentStatus
    riskLevel := riskLevel
    actionRequired := base.actionRequired
    deadline := calculateDeadline rule base.currentStatus now }

/-- One step of the scoring loop of `performGapAnalysis`. -/
def gapStep (md : MerchantData) (now : Int)
    (acc : List ComplianceGap × ℚ × ℚ) (rule : RegulatoryRule) :
    List ComplianceGap × ℚ × ℚ :=
  let analysis := analyzeRuleCompliance rule md now
  let totalScore :=
    if analysis.currentStatus = .compliant then
      acc.2.1 + getRuleWeight rule.requirement
    else if analysis.currentStatus = .partiallyCompliant then
      acc.2.1 + getRuleWeight rule.requirement * (1/2)
    else acc.2.1
  (acc.1 ++ [analysis], totalScore, acc.2.2 + getRuleWeight rule.requirement)

/-- Stable insertion used to model `Array.prototype.sort` (stable per
ECMAScript) with comparator `(a, b) => getRiskScore(b) - getRiskScore(a)`:
descending by risk rank, ties keeping the original order. -/
def insertByRiskDesc (gap : ComplianceGap) :
    List ComplianceGap → List ComplianceGap
  | [] => [gap]
  | g :: gs =>
    if getRiskScore g.riskLevel ≤ getRiskScore gap.riskLevel then gap :: g :: gs
    else g :: insertByRiskDesc gap gs

/-- Stable sort descending by `getRiskScore`. -/
def sortByRiskDesc : List ComplianceGap → List ComplianceGap
  | [] => []
  | g :: gs => insertByRiskDesc g (sortByRiskDesc gs)

/-- Result record of `performGapAnalysis`. -/
structure ComplianceGapAnalysis where
  merchantId : String
  applicableRules : List RegulatoryRule
  gaps : List ComplianceGap
  overallComplianceScore : Int
  priorityActions : List String
deriving DecidableEq, Repr

/-- `performGapAnalysis`, acting on the applicable rules returned by the
rule-catalog query (`findApplicableRules` is a database query and is
modelled as the `applicableRules` input). -/
def performGapAnalysis (merchantId : String)
    (applicableRules : List RegulatoryRule) (md : MerchantData)
    (now : Int) : ComplianceGapAnalysis :=
  let fold := applicableRules.foldl (gapStep md now) ([], 0, 0)
  let gaps := fold.1
  let totalScore := fold.2.1
  let maxScore := fold.2.2
  let overallComplianceScore : Int :=
    if 0 < maxScore then jsRound (totalScore / maxScore * 100) else 100
  let priorityActions :=
    ((sortByRiskDesc (gaps.filter fun gap =>
        decide (gap.riskLevel = .critical ∨ gap.riskLevel = .high))).take 5).map
      (fun gap => gap.actionRequired)
  { merchantId := merchantId
    applicableRules := applicableRules
    gaps := gaps
    overallComplianceScore := overallComplianceScore
    priorityActions := priorityActions }

/-- The spec's per-rule contribution to `totalScore`: the rule's weight if
classified compliant, half of it if partial, zero otherwise. -/
def ruleScoreContribution (rule : RegulatoryRule) (md : MerchantData)
    (now : Int) : ℚ :=
  if (analyzeRuleCompliance rule md now).currentStatus = .compliant then
    getRuleWeight rule.requirement
  else if (analyzeRuleCompliance rule md now).currentStatus = .partiallyCompliant then
    getRuleWeight rule.requirement * (1/2)
  else 0

theorem foldl_gapStep (md : MerchantData) (now : Int) :
    ∀ (rules : List RegulatoryRule) (g0 : List ComplianceGap) (t0 m0 : ℚ),
      rules.foldl (gapStep md now) (g0, t0, m0) =
        (g0 ++ rules.map (fun r => analyzeRuleCompliance r md now),
         t0 + (rules.map (fun r => ruleScoreContribution r md now)).sum,
         m0 + (rules.map (fun r => getRuleWeight r.requirement)).sum) := by
  intro rules
  induction rules with
  | nil => intro g0 t0 m0; simp
  | cons r rest ih =>
    intro g0 t0 m0
    simp only [List.foldl_cons, List.map_cons, List.sum_cons, ih]
    unfold gapStep ruleScoreContribution
    split
    · refine Prod.ext ?_ (Prod.ext ?_ ?_) <;> simp <;> try ring
    · split
      · refine Prod.ext ?_ (Prod.ext ?_ ?_) <;> simp <;> try ring
      · refine Prod.ext ?_ (Prod.ext ?_ ?_) <;> simp <;> try ring

theorem gapAnalysis_gaps_eq (merchantId : String)
    (rules : List RegulatoryRule) (md : MerchantData) (now : Int) :
    (performGapAnalysis merchantId rules md now).gaps =
      rules.map (fun r => analyzeRuleCompliance r md now) := by
  show (rules.foldl (gapStep md now) ([], 0, 0)).1 = _
  rw [foldl_gapStep]
  simp

theorem gapAnalysis_score_formula (merchantId : String)
    (rules : List RegulatoryRule) (md : MerchantData) (now : Int) :
    (performGapAnalysis merchantId rules md now).overallComplianceScore =
      (if 0 < (rules.map (fun r => getRuleWeight r.requirement)).sum then
        jsRound ((rules.map (fun r => ruleScoreContribution r md now)).sum /
          (rules.map (fun r => getRuleWeight r.requirement)).sum * 100)
      else 100) := by
  show (if 0 < (rules.foldl (gapStep md now) ([], 0, 0)).2.2 then
      jsRound ((rules.foldl (gapStep md now) ([], 0, 0)).2.1 /
        (rules.foldl (gapStep md now) ([], 0, 0)).2.2 * 100)
    else 100) = _
  rw [foldl_gapStep]
  simp

/-- A mandatory privacy-policy rule (weight 10). -/
def mandatoryPolicyRule : RegulatoryRule :=
  { regulation := .GDPR
    category := .PRIVACY_POLICY
    title := "Privacy Policy Publication"
    requirement := .MANDATORY }

/-- An optional cookie-management rule (weight 1). -/
def optionalCookieRule : RegulatoryRule :=
  { regulation := .GDPR
    category := .COOKIE_MANAGEMENT
    title := "Cookie Consent Banner"
    requirement := .OPTIONAL }

/-- A merchant that has a privacy policy but no implemented controls, so the
mandatory policy rule classifies compliant and the optional cookie rule
classifies non-compliant. -/
def policyOnlyMerchant : MerchantData :=
  { businessType := "ecommerce"
    jurisdiction := "EU"
    dataTypes := ["personal_data"]
    currentPolicies := ["privacy_policy"]
    implementedControls := [] }

/-- C2: `performGapAnalysis` computes `maxScore` as the sum of the rule
weights (mandatory 10, recommended 5, optional 1), `totalScore` as weight /
half weight / zero per classified status, and
`overallComplianceScore = round(totalScore / maxScore * 100)`, defined as
100 when `maxScore = 0`; one mandatory compliant rule plus one optional
non-compliant rule yields 91. -/
theorem performGapAnalysis_overall_score (merchantId : String)
    (rules : List RegulatoryRule) (md : MerchantData) (now : Int) :
    ((performGapAnalysis merchantId rules md now).overallComplianceScore =
      (if 0 < (rules.map (fun r => getRuleWeight r.requirement)).sum then
        jsRound ((rules.map (fun r => ruleScoreContribution r md now)).sum /
          (rules.map (fun r => getRuleWeight r.requirement)).sum * 100)
      else 100)) ∧
    (performGapAnalysis "merchant-1" [mandatoryPolicyRule, optionalCookieRule]
        policyOnlyMerchant 0).overallComplianceScore = 91 := by
  refine ⟨gapAnalysis_score_formula merchantId rules md now, ?_⟩
  rw [gapAnalysis_score_formula]
  have hclass1 : ruleScoreContribution mandatoryPolicyRule policyOnlyMerchant 0 = 10 := by
    simp [ruleScoreContribution, analyzeRuleCompliance, classifyRuleCompliance,
      mandatoryPolicyRule, policyOnlyMerchant, getRuleWeight]
  have hclass2 : ruleScoreContribution optionalCookieRule policyOnlyMerchant 0 = 0 := by
    simp [ruleScoreContribution, analyzeRuleCompliance, classifyRuleCompliance,
      optionalCookieRule, policyOnlyMerchant, getRuleWeight]
  simp only [List.map_cons, List.map_nil, List.sum_cons, List.sum_nil,
    hclass1, hclass2]
  norm_num [mandatoryPolicyRule, optionalCookieRule, getRuleWeight,
    jsRound_eq_floor, Int.floor_eq_iff]

/-- A mandatory consent-management rule, used as a concrete escalation input. -/
def mandatoryConsentRule : RegulatoryRule :=
  { regulation := .GDPR
    category := .CONSENT_MANAGEMENT
    title := "Consent Management"
    requirement := .MANDATORY }

/-- C4: for a mandatory rule classified non-compliant, `analyzeRuleCompliance`
escalates the base risk level exactly one step up the ordered scale
(`getRiskScore` of the bumped level is `min (rank + 1) 4`), the reported
level for a mandatory rule is never ranked below the level reported under
any other requirement with the same base classification, and `critical` is
a fixed point of the escalation. -/
theorem analyzeRuleCompliance_mandatory_escalation (rule : RegulatoryRule)
    (md : MerchantData) (now : Int) :
    (∀ lv, getRiskScore (bumpRiskLevel lv) = min (getRiskScore lv + 1) 4) ∧
    (rule.requirement = .MANDATORY →
      (classifyRuleCompliance rule.category rule.title md).currentStatus =
        .non_compliant →
      (analyzeRuleCompliance rule md now).riskLevel =
        bumpRiskLevel (classifyRuleCompliance rule.category rule.title md).riskLevel) ∧
    (∀ req : ComplianceRequirement,
      getRiskScore ((analyzeRuleCompliance { rule with requirement := req }
          md now).riskLevel) ≤
        getRiskScore ((analyzeRuleCompliance { rule with requirement := .MANDATORY }
          md now).riskLevel)) ∧
    bumpRiskLevel .critical = .critical := by
  refine ⟨?_, ?_, ?_, rfl⟩
  · intro lv; cases lv <;> rfl
  · intro h1 h2
    simp [analyzeRuleCompliance, h1, h2]
  · intro req
    simp only [analyzeRuleCompliance]
    generalize classifyRuleCompliance rule.category rule.title md = base
    obtain ⟨st, lv, act⟩ := base
    cases req <;> cases st <;> cases lv <;> simp [bumpRiskLevel, getRiskScore]

theorem getRiskScore_le_four (lv : RiskLevel) : getRiskScore lv ≤ 4 := by
  cases lv <;> decide

theorem insertByRiskDesc_critical (gap : ComplianceGap) (l : List ComplianceGap)
    (h : gap.riskLevel = .critical) : insertByRiskDesc gap l = gap :: l := by
  cases l with
  | nil => rfl
  | cons g gs =>
    have hpos : getRiskScore g.riskLevel ≤ getRiskScore gap.riskLevel := by
      rw [h]; exact getRiskScore_le_four _
    simp only [insertByRiskDesc, if_pos hpos]

theorem insertByRiskDesc_high_append (gap : ComplianceGap)
    (h : gap.riskLevel = .high) :
    ∀ (C H : List ComplianceGap), (∀ y ∈ C, y.riskLevel = .critical) →
      insertByRiskDesc gap (C ++ H) = C ++ insertByRiskDesc gap H := by
  intro C
  induction C with
  | nil => intro H _; rfl
  | cons c cs ih =>
    intro H hC
    have hc : c.riskLevel = .critical := hC c (by simp)
    have hneg : ¬(getRiskScore c.riskLevel ≤ getRiskScore gap.riskLevel) := by
      rw [hc, h]; decide
    have hrest : ∀ y ∈ cs, y.riskLevel = .critical := fun y hy => hC y (by simp [hy])
    simp only [List.cons_append, insertByRiskDesc, if_neg hneg, List.append_eq,
      ih H hrest]

theorem insertByRiskDesc_high_front (gap : ComplianceGap)
    (h : gap.riskLevel = .high) (H : List ComplianceGap)
    (hH : ∀ y ∈ H, y.riskLevel = .high) : insertByRiskDesc gap H = gap :: H := by
  cases H with
  | nil => rfl
  | cons g gs =>
    have hg : g.riskLevel = .high := hH g (by simp)
    have hpos : getRiskScore g.riskLevel ≤ getRiskScore gap.riskLevel := by
      rw [hg, h]
    simp only [insertByRiskDesc, if_pos hpos]

theorem sortByRiskDesc_filter_split (l : List ComplianceGap) :
    sortByRiskDesc (l.filter fun g =>
        decide (g.riskLevel = .critical ∨ g.riskLevel = .high)) =
      (l.filter fun g => decide (g.riskLevel = .critical)) ++
        (l.filter fun g => decide (g.riskLevel = .high)) := by
  have hCmem : ∀ (gs : List ComplianceGap),
      ∀ y ∈ gs.filter (fun g => decide (g.riskLevel = .critical)),
        y.riskLevel = .critical := by
    intro gs y hy
    simpa using (List.mem_filter.mp hy).2
  have hHmem : ∀ (gs : List ComplianceGap),
      ∀ y ∈ gs.filter (fun g => decide (g.riskLevel = .high)),
        y.riskLevel = .high := by
    intro gs y hy
    simpa using (List.mem_filter.mp hy).2
  induction l with
  | nil => rfl
  | cons g gs ih =>
    cases hlv : g.riskLevel with
    | low => simpa [List.filter_cons, hlv] using ih
    | medium => simpa [List.filter_cons, hlv] using ih
    | high =>
      have h1 : decide (g.riskLevel = RiskLevel.critical ∨
          g.riskLevel = RiskLevel.high) = true := by simp [hlv]
      have h2 : decide (g.riskLevel = RiskLevel.critical) = false := by
        simp [hlv]
      have h3 : decide (g.riskLevel = RiskLevel.high) = true := by simp [hlv]
      simp only [List.filter_cons, h1, h2, h3, if_true, if_false,
        Bool.false_eq_true, reduceIte, sortByRiskDesc, ih]
      rw [insertByRiskDesc_high_append g hlv _ _ (hCmem gs),
        insertByRiskDesc_high_front g hlv _ (hHmem gs)]
    | critical =>
      have h1 : decide (g.riskLevel = RiskLevel.critical ∨
          g.riskLevel = RiskLevel.high) = true := by simp [hlv]
      have h2 : decide (g.riskLevel = RiskLevel.critical) = true := by
        simp [hlv]
      have h3 : decide (g.riskLevel = RiskLevel.high) = false := by simp [hlv]
      simp only [List.filter_cons, h1, h2, h3, if_true, if_false,
        Bool.false_eq_true, reduceIte, sortByRiskDesc, ih]
      rw [insertByRiskDesc_critical g _ hlv]
      simp

theorem analyzeRuleCompliance_escalation_witness :
    mandatoryConsentRule.requirement = ComplianceRequirement.MANDATORY ∧
    (classifyRuleCompliance mandatoryConsentRule.category
        mandatoryConsentRule.title policyOnlyMerchant).currentStatus =
      GapStatus.non_compliant ∧
    (analyzeRuleCompliance mandatoryConsentRule policyOnlyMerchant 0).riskLevel =
      RiskLevel.critical := by
  refine ⟨rfl, rfl, ?_⟩
  have h := analyzeRuleCompliance_mandatory_escalation mandatoryConsentRule
    policyOnlyMerchant 0
  rw [h.2.1 rfl rfl]
  rfl

/-- C5: `priorityActions` is the action strings of the critical gaps (in
input order) followed by the high gaps (in input order), truncated to five —
i.e. a stable descending sort by risk rank of the critical/high filter —
hence it has length at most five, only draws on high/critical gaps, and is
empty when no gap is high or critical. -/
theorem performGapAnalysis_priority_actions (merchantId : String)
    (rules : List RegulatoryRule) (md : MerchantData) (now : Int) :
    ((performGapAnalysis merchantId rules md now).priorityActions =
      ((((performGapAnalysis merchantId rules md now).gaps.filter fun g =>
            decide (g.riskLevel = .critical)) ++
          ((performGapAnalysis merchantId rules md now).gaps.filter fun g =>
            decide (g.riskLevel = .high))).take 5).map
        (fun gap => gap.actionRequired)) ∧
    (performGapAnalysis merchantId rules md now).priorityActions.length ≤ 5 ∧
    (∀ a ∈ (performGapAnalysis merchantId rules md now).priorityActions,
      ∃ g ∈ (performGapAnalysis merchantId rules md now).gaps,
        (g.riskLevel = .high ∨ g.riskLevel = .critical) ∧
          a = g.actionRequired) ∧
    ((∀ g ∈ (performGapAnalysis merchantId rules md now).gaps,
        g.riskLevel ≠ .high ∧ g.riskLevel ≠ .critical) →
      (performGapAnalysis merchantId rules md now).priorityActions = []) := by
  have hpa : (performGapAnalysis merchantId rules md now).priorityActions =
      ((sortByRiskDesc ((performGapAnalysis merchantId rules md now).gaps.filter
          fun gap => decide (gap.riskLevel = .critical ∨
            gap.riskLevel = .high))).take 5).map
        (fun gap => gap.actionRequired) := rfl
  have hsplit := sortByRiskDesc_filter_split
    (performGapAnalysis merchantId rules md now).gaps
  refine ⟨?_, ?_, ?_, ?_⟩
  · rw [hpa, hsplit]
  · rw [hpa]
    simp only [List.length_map, List.length_take]
    omega
  · intro a ha
    rw [hpa, hsplit] at ha
    obtain ⟨g, hg, rfl⟩ := List.mem_map.mp ha
    have hg2 := List.mem_of_mem_take hg
    rcases List.mem_append.mp hg2 with hmem | hmem
    · obtain ⟨hin, hp⟩ := List.mem_filter.mp hmem
      refine ⟨g, hin, Or.inr (by simpa using hp), rfl⟩
    · obtain ⟨hin, hp⟩ := List.mem_filter.mp hmem
      refine ⟨g, hin, Or.inl (by simpa using hp), rfl⟩
  · intro hnone
    rw [hpa, hsplit]
    have hc : ((performGapAnalysis merchantId rules md now).gaps.filter fun g =>
        decide (g.riskLevel = .critical)) = [] := by
      rw [List.filter_eq_nil_iff]
      intro g hg
      simpa using (hnone g hg).2
    have hh : ((performGapAnalysis merchantId rules md now).gaps.filter fun g =>
        decide (g.riskLevel = .high)) = [] := by
      rw [List.filter_eq_nil_iff]
      intro g hg
      simpa using (hnone g hg).1
    rw [hc, hh]
    rfl

theorem performGapAnalysis_priority_actions_witness :
    (performGapAnalysis "merchant-1" [] policyOnlyMerchant 0).priorityActions =
      [] := by
  have h := performGapAnalysis_priority_actions "merchant-1" [] policyOnlyMerchant 0
  refine h.2.2.2 ?_
  intro g hg
  rw [gapAnalysis_gaps_eq] at hg
  simp at hg

/-! ## Third-party app risk model (`third-party-app-risk.service.ts`) -/

/-- `DataAccessLevel` enum of the third-party-app entity. -/
inductive DataAccessLevel where
  | READ_ONLY | READ_WRITE | FULL_ACCESS | ADMIN
deriving DecidableEq, Repr

/-- The `permissions` jsonb column. -/
structure AppPermissions where
  scopes : List String
  dataAccess : List String
  webhooks : List String
  apiEndpoints : List String
deriving DecidableEq, Repr

/-- The `riskFactors` jsonb column. -/
structure AppRiskFactors where
  dataTypes : List String
  thirdPartySharing : Bool
  encryptionStatus : String
  complianceCertifications : List String
  privacyPolicyUrl : Option String
  dataRetentionPeriod : Option String
  dataLocation : Option String
deriving DecidableEq, Repr

/-- The fields of a `ThirdPartyApp` read by the risk analysis. The nullable
jsonb columns are `Option`s. -/
structure ThirdPartyApp where
  merchantId : String
  appId : String
  appName : String
  developer : Option String
  dataAccessLevel : DataAccessLevel
  riskLevel : RiskLevel
  riskScore : Int
  permissions : Option AppPermissions
  riskFactors : Option AppRiskFactors
deriving DecidableEq, Repr

/-- Character-list version of `String.startsWith` for the substring test. -/
def charListLeadsWith : List Char → List Char → Bool
  | [], _ => true
  | _ :: _, [] => false
  | p :: ps, c :: cs => p = c && charListLeadsWith ps cs

/-- Character-list substring containment. -/
def charListContains (p : List Char) : List Char → Bool
  | [] => charListLeadsWith p []
  | c :: cs => charListLeadsWith p (c :: cs) || charListContains p cs

/-- JS `s.includes(pat)`. -/
def strIncludes (s pat : String) : Bool := charListContains pat.data s.data

/-- `highRiskPermissions` pattern list. -/
def highRiskPermissions : List String :=
  ["read_customers", "write_customers", "read_orders", "write_orders",
   "read_all_orders", "write_all_orders", "read_users", "write_users",
   "read_script_tags", "write_script_tags"]

/-- Result of one sub-analysis: findings plus a raw sub-score. -/
structure SubRiskResult where
  factors : List AuditFinding
  score : Int
deriving DecidableEq, Repr

/-- The `riskWeights` table (`{dataAccess: 0.3, permissions: 0.25,
compliance: 0.2, security: 0.15, reputation: 0.1}`). -/
structure RiskWeights where
  dataAccess : ℚ
  permissions : ℚ
  compliance : ℚ
  security : ℚ
  reputation : ℚ
deriving DecidableEq, Repr

def riskWeights : RiskWeights :=
  { dataAccess := 0.3
    permissions := 0.25
    compliance := 0.2
    security := 0.15
    reputation := 0.1 }

/-- Number of sensitive data types recorded for the app
(`app.riskFactors?.dataTypes?.filter(t => [personal, payment].includes(t))`;
a missing `riskFactors` makes the guard falsy). -/
def sensitiveDataCount (app : ThirdPartyApp) : Nat :=
  match app.riskFactors with
  | some rf =>
    (rf.dataTypes.filter (fun t =>
      (["personal_data", "payment_information"] : List String).contains t)).length
  | none => 0

/-- `analyzeDataAccessRisk`. -/
def analyzeDataAccessRisk (app : ThirdPartyApp) : SubRiskResult :=
  let base : SubRiskResult :=
    if app.dataAccessLevel = DataAccessLevel.FULL_ACCESS then
      { factors := [
          { category := "Data Access"
            severity := Severity.critical
            description := "App has full access to store data"
            impact := "Complete data exposure risk" }]
        score := 80 }
    else if app.dataAccessLevel = DataAccessLevel.READ_WRITE then
      { factors := [
          { category := "Data Access"
            severity := Severity.high
            description := "App can read and modify store data"
            impact := "Data modification and exposure risk" }]
        score := 60 }
    else { factors := [], score := 0 }
  if 0 < sensitiveDataCount app then
    { factors := base.factors ++ [
        { category := "Sensitive Data"
          severity := Severity.high
          description := "App accesses sensitive personal or payment data"
          impact := "Privacy and security compliance risk" }]
      score := base.score + 40 }
  else base

/-- `analyzePermissionRisk`. -/
def analyzePermissionRisk (app : ThirdPartyApp) : SubRiskResult :=
  let scopes := match app.permissions with
    | some p => p.scopes
    | none => []
  let highRiskCount := (scopes.filter (fun scope =>
    highRiskPermissions.any (fun pat => strIncludes scope pat))).length
  if 3 < highRiskCount then
    { factors := [
        { category := "Permissions"
          severity := Severity.high
          description := "App requests excessive high-risk permissions"
          impact := "Broad access to sensitive operations" }]
      score := 70 }
  else if 0 < highRiskCount then
    { factors := [
        { category := "Permissions"
          severity := Severity.medium
          description := "App requests some high-risk permissions"
          impact := "Limited access to sensitive operations" }]
      score := 40 }
  else { factors := [], score := 0 }

/-- `!app.riskFactors?.privacyPolicyUrl` (optional chaining then JS falsiness). -/
def privacyPolicyMissing (app : ThirdPartyApp) : Bool :=
  match app.riskFactors with
  | some rf => jsFalsyStr rf.privacyPolicyUrl
  | none => true

/-- `app.riskFactors?.dataRetentionPeriod === 'unknown'`. -/
def retentionPeriodUnknown (app : ThirdPartyApp) : Bool :=
  match app.riskFactors with
  | some rf => rf.dataRetentionPeriod = some "unknown"
  | none => false

/-- `analyzeComplianceRisk` (both findings may fire together). -/
def analyzeComplianceRisk (app : ThirdPartyApp) : SubRiskResult :=
  let s1 : SubRiskResult :=
    if privacyPolicyMissing app then
      { factors := [
          { category := "Compliance"
            severity := Severity.high
            description := "App lacks privacy policy"
            impact := "GDPR compliance risk" }]
        score := 60 }
    else { factors := [], score := 0 }
  if retentionPeriodUnknown app then
    { factors := s1.factors ++ [
        { category := "Data Retention"
          severity := Severity.medium
          description := "Data retention period not specified"
          impact := "Data minimization compliance risk" }]
      score := s1.score + 30 }
  else s1

/-- `app.riskFactors?.encryptionStatus === 'unknown'`. -/
def encryptionStatusUnknown (app : ThirdPartyApp) : Bool :=
  match app.riskFactors with
  | some rf => rf.encryptionStatus = "unknown"
  | none => false

/-- `analyzeSecurityRisk`. -/
def analyzeSecurityRisk (app : ThirdPartyApp) : SubRiskResult :=
  if encryptionStatusUnknown app then
    { factors := [
        { category := "Security"
          severity := Severity.medium
          description := "Encryption status unknown"
          impact := "Data security risk" }]
      score := 30 }
  else { factors := [], score := 0 }

/-- `analyzeReputationRisk`
(`!app.developer || app.developer === 'Unknown Developer'`). -/
def analyzeReputationRisk (app : ThirdPartyApp) : SubRiskResult :=
  if jsFalsyStr app.developer || app.developer = some "Unknown Developer" then
    { factors := [
        { category := "Developer Reputation"
          severity := Severity.medium
          description := "Unknown or unverified developer"
          impact := "Trust and reliability concerns" }]
      score := 40 }
  else { factors := [], score := 0 }

/-- `calculateRiskLevel` (§4.1 thresholds; inclusive lower bounds). -/
def calculateRiskLevel (score : Int) : RiskLevel :=
  if 80 ≤ score then .critical
  else if 60 ≤ score then .high
  else if 40 ≤ score then .medium
  else .low

/-- A per-app compliance gap entry. -/
structure AppComplianceGap where
  regulation : String
  requirement : String
  description : String
  remediation : String
deriving DecidableEq, Repr

/-- `generateAppRecommendations` (note: the `riskScore > 70` test reads the
app's previously stored `riskScore` column, not the newly computed one). -/
def generateAppRecommendations (app : ThirdPartyApp)
    (riskFactors : List AuditFinding) : List String :=
  (if riskFactors.any (fun f => f.category = "Data Access") then
    ["Review and minimize app data access permissions"] else []) ++
  (if privacyPolicyMissing app then
    ["Request privacy policy from app developer"] else []) ++
  (if 70 < app.riskScore then
    ["Consider removing or replacing this high-risk app"] else [])

/-- `identifyAppComplianceGaps`. -/
def identifyAppComplianceGaps (app : ThirdPartyApp) : List AppComplianceGap :=
  if privacyPolicyMissing app then
    [{ regulation := "GDPR"
       requirement := "Article 28 - Processor agreements"
       description := "Third-party processor lacks privacy policy"
       remediation := "Obtain data processing agreement and privacy policy" }]
  else []

/-- Per-app analysis result (`AppRiskAnalysis`). -/
structure AppRiskAnalysis where
  appId : String
  appName : String
  riskLevel : RiskLevel
  riskScore : Int
  riskFactors : List AuditFinding
  recommendations : List String
  complianceGaps : List AppComplianceGap
deriving DecidableEq, Repr

/-- `analyzeAppRisk`: accumulate the five weighted sub-scores, round, clamp
to [0,100], threshold into a risk level. -/
def analyzeAppRisk (app : ThirdPartyApp) : AppRiskAnalysis :=
  let dataAccessRisk := analyzeDataAccessRisk app
  let permissionRisk := analyzePermissionRisk app
  let complianceRisk := analyzeComplianceRisk app
  let securityRisk := analyzeSecurityRisk app
  let reputationRisk := analyzeReputationRisk app
  let riskScore : ℚ :=
    (dataAccessRisk.score : ℚ) * riskWeights.dataAccess +
    (permissionRisk.score : ℚ) * riskWeights.permissions +
    (complianceRisk.score : ℚ) * riskWeights.compliance +
    (securityRisk.score : ℚ) * riskWeights.security +
    (reputationRisk.score : ℚ) * riskWeights.reputation
  let finalRiskScore : Int := min 100 (max 0 (jsRound riskScore))
  let riskFactors := dataAccessRisk.factors ++ permissionRisk.factors ++
    complianceRisk.factors ++ securityRisk.factors ++ reputationRisk.factors
  { appId := app.appId
    appName := app.appName
    riskLevel := calculateRiskLevel finalRiskScore
    riskScore := finalRiskScore
    riskFactors := riskFactors
    recommendations := generateAppRecommendations app riskFactors
    complianceGaps := identifyAppComplianceGaps app }

/-- C3 counterexample: the claim's example "riskScore 55 maps to `high`" is
false on the code — `calculateRiskLevel 55` falls in the `[40, 60)` band and
returns `medium`. -/
theorem calculateRiskLevel_55_not_high :
    calculateRiskLevel 55 = RiskLevel.medium ∧
      calculateRiskLevel 55 ≠ RiskLevel.high := by
  exact ⟨rfl, by decide⟩

/-- C3 (amended: 55 maps to `medium`, not `high`): the composite `riskScore`
is `clamp(round(Σ subscore·weight), 0, 100)` with weights
0.30/0.25/0.20/0.15/0.10, the app's `riskLevel` is derived from that score
by `calculateRiskLevel`, and the fixed thresholds map 85 to critical, 55 to
medium, 45 to medium and 10 to low (boundaries 80/60/40 are inclusive lower
bounds). -/
theorem analyzeAppRisk_composite_score (app : ThirdPartyApp) :
    ((analyzeAppRisk app).riskScore =
      min 100 (max 0 (jsRound (
        ((analyzeDataAccessRisk app).score : ℚ) * 0.3 +
        ((analyzePermissionRisk app).score : ℚ) * 0.25 +
        ((analyzeComplianceRisk app).score : ℚ) * 0.2 +
        ((analyzeSecurityRisk app).score : ℚ) * 0.15 +
        ((analyzeReputationRisk app).score : ℚ) * 0.1)))) ∧
    ((analyzeAppRisk app).riskLevel =
      calculateRiskLevel (analyzeAppRisk app).riskScore) ∧
    calculateRiskLevel 85 = .critical ∧ calculateRiskLevel 55 = .medium ∧
    calculateRiskLevel 45 = .medium ∧ calculateRiskLevel 10 = .low ∧
    calculateRiskLevel 80 = .critical ∧ calculateRiskLevel 79 = .high ∧
    calculateRiskLevel 60 = .high ∧ calculateRiskLevel 59 = .medium ∧
    calculateRiskLevel 40 = .medium ∧ calculateRiskLevel 39 = .low := by
  exact ⟨rfl, rfl, rfl, rfl, rfl, rfl, rfl, rfl, rfl, rfl, rfl, rfl⟩

theorem analyzeDataAccessRisk_score_bounds (app : ThirdPartyApp) :
    0 ≤ (analyzeDataAccessRisk app).score ∧
      (analyzeDataAccessRisk app).score ≤ 120 := by
  unfold analyzeDataAccessRisk
  split_ifs <;> simp <;> omega

theorem analyzePermissionRisk_score_bounds (app : ThirdPartyApp) :
    0 ≤ (analyzePermissionRisk app).score ∧
      (analyzePermissionRisk app).score ≤ 70 := by
  unfold analyzePermissionRisk
  dsimp only
  split_ifs <;> simp

theorem analyzeComplianceRisk_score_bounds (app : ThirdPartyApp) :
    0 ≤ (analyzeComplianceRisk app).score ∧
      (analyzeComplianceRisk app).score ≤ 90 := by
  unfold analyzeComplianceRisk
  split_ifs <;> simp <;> omega

theorem analyzeSecurityRisk_score_bounds (app : ThirdPartyApp) :
    0 ≤ (analyzeSecurityRisk app).score ∧
      (analyzeSecurityRisk app).score ≤ 30 := by
  unfold analyzeSecurityRisk
  split_ifs <;> simp

theorem analyzeReputationRisk_score_bounds (app : ThirdPartyApp) :
    0 ≤ (analyzeReputationRisk app).score ∧
      (analyzeReputationRisk app).score ≤ 40 := by
  unfold analyzeReputationRisk
  split_ifs <;> simp

theorem calculateRiskLevel_critical_iff (s : Int) :
    calculateRiskLevel s = .critical ↔ 80 ≤ s := by
  unfold calculateRiskLevel
  split_ifs <;> simp_all <;> omega

/-- The weighted sub-score sum of any app lies in `[0, 80]`. -/
theorem weighted_subscore_sum_bounds (app : ThirdPartyApp) :
    (0 : ℚ) ≤ ((analyzeDataAccessRisk app).score : ℚ) * 0.3 +
        ((analyzePermissionRisk app).score : ℚ) * 0.25 +
        ((analyzeComplianceRisk app).score : ℚ) * 0.2 +
        ((analyzeSecurityRisk app).score : ℚ) * 0.15 +
        ((analyzeReputationRisk app).score : ℚ) * 0.1 ∧
      ((analyzeDataAccessRisk app).score : ℚ) * 0.3 +
        ((analyzePermissionRisk app).score : ℚ) * 0.25 +
        ((analyzeComplianceRisk app).score : ℚ) * 0.2 +
        ((analyzeSecurityRisk app).score : ℚ) * 0.15 +
        ((analyzeReputationRisk app).score : ℚ) * 0.1 ≤ 80 := by
  obtain ⟨hda0, hda1⟩ := analyzeDataAccessRisk_score_bounds app
  obtain ⟨hpe0, hpe1⟩ := analyzePermissionRisk_score_bounds app
  obtain ⟨hco0, hco1⟩ := analyzeComplianceRisk_score_bounds app
  obtain ⟨hse0, hse1⟩ := analyzeSecurityRisk_score_bounds app
  obtain ⟨hre0, hre1⟩ := analyzeReputationRisk_score_bounds app
  have cda0 : (0 : ℚ) ≤ ((analyzeDataAccessRisk app).score : ℚ) := by
    exact_mod_cast hda0
  have cda1 : ((analyzeDataAccessRisk app).score : ℚ) ≤ 120 := by
    exact_mod_cast hda1
  have cpe0 : (0 : ℚ) ≤ ((analyzePermissionRisk app).score : ℚ) := by
    exact_mod_cast hpe0
  have cpe1 : ((analyzePermissionRisk app).score : ℚ) ≤ 70 := by
    exact_mod_cast hpe1
  have cco0 : (0 : ℚ) ≤ ((analyzeComplianceRisk app).score : ℚ) := by
    exact_mod_cast hco0
  have cco1 : ((analyzeComplianceRisk app).score : ℚ) ≤ 90 := by
    exact_mod_cast hco1
  have cse0 : (0 : ℚ) ≤ ((analyzeSecurityRisk app).score : ℚ) := by
    exact_mod_cast hse0
  have cse1 : ((analyzeSecurityRisk app).score : ℚ) ≤ 30 := by
    exact_mod_cast hse1
  have cre0 : (0 : ℚ) ≤ ((analyzeReputationRisk app).score : ℚ) := by
    exact_mod_cast hre0
  have cre1 : ((analyzeReputationRisk app).score : ℚ) ≤ 40 := by
    exact_mod_cast hre1
  constructor <;> nlinarith

/-- The app in which every worst-case sub-factor fires simultaneously. -/
def worstCaseApp : ThirdPartyApp :=
  { merchantId := "merchant-1"
    appId := "app_worst"
    appName := "Worst Case App"
    developer := none
    dataAccessLevel := .FULL_ACCESS
    riskLevel := .medium
    riskScore := 50
    permissions := some
      { scopes := ["read_customers", "write_customers", "read_orders",
          "write_orders"]
        dataAccess := []
        webhooks := []
        apiEndpoints := [] }
    riskFactors := some
      { dataTypes := ["personal_data"]
        thirdPartySharing := true
        encryptionStatus := "unknown"
        complianceCertifications := []
        privacyPolicyUrl := none
        dataRetentionPeriod := some "unknown"
        dataLocation := none } }

/-- C10: the composite risk score never exceeds 80 (the weighted maxima sum
to `120·0.3 + 70·0.25 + 90·0.2 + 30·0.15 + 40·0.1 = 80`, so the upper clamp
at 100 never binds), `critical` is reachable only at exactly 80, and the
bound is attained when all worst-case sub-factors fire simultaneously. -/
theorem analyzeAppRisk_score_le_80 :
    (∀ app : ThirdPartyApp, (analyzeAppRisk app).riskScore ≤ 80 ∧
      ((analyzeAppRisk app).riskLevel = RiskLevel.critical ↔
        (analyzeAppRisk app).riskScore = 80)) ∧
    (analyzeAppRisk worstCaseApp).riskScore = 80 ∧
    (analyzeAppRisk worstCaseApp).riskLevel = RiskLevel.critical := by
  have hmain : ∀ app : ThirdPartyApp, (analyzeAppRisk app).riskScore ≤ 80 ∧
      ((analyzeAppRisk app).riskLevel = RiskLevel.critical ↔
        (analyzeAppRisk app).riskScore = 80) := by
    intro app
    obtain ⟨hq0, hq80⟩ := weighted_subscore_sum_bounds app
    have hround : jsRound (((analyzeDataAccessRisk app).score : ℚ) * 0.3 +
        ((analyzePermissionRisk app).score : ℚ) * 0.25 +
        ((analyzeComplianceRisk app).score : ℚ) * 0.2 +
        ((analyzeSecurityRisk app).score : ℚ) * 0.15 +
        ((analyzeReputationRisk app).score : ℚ) * 0.1) ≤ 80 := by
      rw [jsRound_eq_floor]
      have hfl : (⌊(80 : ℚ) + 1/2⌋ : ℤ) = 80 := by
        rw [Int.floor_eq_iff] <;> norm_num
      calc ⌊((analyzeDataAccessRisk app).score : ℚ) * 0.3 +
            ((analyzePermissionRisk app).score : ℚ) * 0.25 +
            ((analyzeComplianceRisk app).score : ℚ) * 0.2 +
            ((analyzeSecurityRisk app).score : ℚ) * 0.15 +
            ((analyzeReputationRisk app).score : ℚ) * 0.1 + 1/2⌋
          ≤ ⌊(80 : ℚ) + 1/2⌋ := Int.floor_le_floor (by linarith)
        _ = 80 := hfl
    have hscore : (analyzeAppRisk app).riskScore =
        min 100 (max 0 (jsRound (((analyzeDataAccessRisk app).score : ℚ) * 0.3 +
          ((analyzePermissionRisk app).score : ℚ) * 0.25 +
          ((analyzeComplianceRisk app).score : ℚ) * 0.2 +
          ((analyzeSecurityRisk app).score : ℚ) * 0.15 +
          ((analyzeReputationRisk app).score : ℚ) * 0.1))) := rfl
    have hle : (analyzeAppRisk app).riskScore ≤ 80 := by
      rw [hscore]
      exact le_trans (min_le_right _ _) (max_le (by norm_num) hround)
    refine ⟨hle, ?_⟩
    have hlevel : (analyzeAppRisk app).riskLevel =
        calculateRiskLevel (analyzeAppRisk app).riskScore := rfl
    rw [hlevel, calculateRiskLevel_critical_iff]
    omega
  have hws : (analyzeAppRisk worstCaseApp).riskScore = 80 := by
    have hda : (analyzeDataAccessRisk worstCaseApp).score = 120 := by decide
    have hpe : (analyzePermissionRisk worstCaseApp).score = 70 := by decide
    have hco : (analyzeComplianceRisk worstCaseApp).score = 90 := by decide
    have hse : (analyzeSecurityRisk worstCaseApp).score = 30 := by decide
    have hre : (analyzeReputationRisk worstCaseApp).score = 40 := by decide
    have hscore : (analyzeAppRisk worstCaseApp).riskScore =
        min 100 (max 0 (jsRound
          (((analyzeDataAccessRisk worstCaseApp).score : ℚ) * 0.3 +
          ((analyzePermissionRisk worstCaseApp).score : ℚ) * 0.25 +
          ((analyzeComplianceRisk worstCaseApp).score : ℚ) * 0.2 +
          ((analyzeSecurityRisk worstCaseApp).score : ℚ) * 0.15 +
          ((analyzeReputationRisk worstCaseApp).score : ℚ) * 0.1))) := rfl
    rw [hscore, hda, hpe, hco, hse, hre]
    have h80 : (((120 : Int) : ℚ)) * 0.3 + (((70 : Int) : ℚ)) * 0.25 +
        (((90 : Int) : ℚ)) * 0.2 + (((30 : Int) : ℚ)) * 0.15 +
        (((40 : Int) : ℚ)) * 0.1 = 80 := by norm_num
    rw [h80]
    have hj : jsRound (80 : ℚ) = 80 := by
      rw [jsRound_eq_floor, Int.floor_eq_iff]
      norm_num
    rw [hj]
    decide
  exact ⟨hmain, hws, ((hmain worstCaseApp).2).mpr hws⟩

/-- The `riskBreakdown` object; components are `Option` because the
unguarded division produces `NaN` on an empty analysis list. -/
structure RiskBreakdown where
  dataAccess : Option Int
  permissions : Option Int
  compliance : Option Int
  security : Option Int
  reputation : Option Int
deriving DecidableEq, Repr

/-- `calculateRiskBreakdown`: for each sub-factor, the mean over all apps of
`riskScore * weight`, rounded. The division by `analyses.length` is not
guarded against an empty list. -/
def calculateRiskBreakdown (analyses : List AppRiskAnalysis) : RiskBreakdown :=
  { dataAccess := jsRoundOpt (jsDiv
      (analyses.foldl (fun sum a => sum + (a.riskScore : ℚ) * 0.3) 0)
      (analyses.length : ℚ))
    permissions := jsRoundOpt (jsDiv
      (analyses.foldl (fun sum a => sum + (a.riskScore : ℚ) * 0.25) 0)
      (analyses.length : ℚ))
    compliance := jsRoundOpt (jsDiv
      (analyses.foldl (fun sum a => sum + (a.riskScore : ℚ) * 0.2) 0)
      (analyses.length : ℚ))
    security := jsRoundOpt (jsDiv
      (analyses.foldl (fun sum a => sum + (a.riskScore : ℚ) * 0.15) 0)
      (analyses.length : ℚ))
    reputation := jsRoundOpt (jsDiv
      (analyses.foldl (fun sum a => sum + (a.riskScore : ℚ) * 0.1) 0)
      (analyses.length : ℚ)) }

/-- A fleet-level recommendation of `generateRecommendations`. -/
structure FleetRecommendation where
  priority : RecPriority
  category : String
  description : String
  actionItems : List String
  affectedApps : List String
deriving DecidableEq, Repr

/-- `generateRecommendations`. -/
def generateRecommendations (analyses : List AppRiskAnalysis) :
    List FleetRecommendation :=
  let highRiskApps := analyses.filter (fun a => 70 < a.riskScore)
  if 0 < highRiskApps.length then
    [{ priority := RecPriority.urgent
       category := "High Risk Apps"
       description := toString highRiskApps.length ++
         " apps pose high security risks"
       actionItems := ["Review high-risk app permissions",
         "Consider removing unnecessary apps",
         "Implement additional monitoring"]
       affectedApps := highRiskApps.map (fun a => a.appName) }]
  else []

/-- A fleet-level compliance gap of `identifyComplianceGaps`. -/
structure FleetComplianceGap where
  regulation : String
  requirement : String
  affectedApps : List String
  riskLevel : RiskLevel
  remediation : String
deriving DecidableEq, Repr

/-- `identifyComplianceGaps` (the filter keeps the analyses with no
GDPR-tagged gap entry, following the source). -/
def identifyComplianceGaps (analyses : List AppRiskAnalysis) :
    List FleetComplianceGap :=
  let appsWithoutPrivacyPolicy := analyses.filter (fun a =>
    !(a.complianceGaps.any (fun g => g.regulation = "GDPR")))
  if 0 < appsWithoutPrivacyPolicy.length then
    [{ regulation := "GDPR"
       requirement := "Data Processing Agreements"
       affectedApps := appsWithoutPrivacyPolicy.map (fun a => a.appName)
       riskLevel := RiskLevel.high
       remediation := "Obtain data processing agreements from all third-party apps" }]
  else []

/-- The persisted `AppRiskAssessment` record. -/
structure AppRiskAssessment where
  merchantId : String
  totalApps : Nat
  highRiskApps : Nat
  mediumRiskApps : Nat
  lowRiskApps : Nat
  overallRiskScore : Int
  riskBreakdown : RiskBreakdown
  recommendations : List FleetRecommendation
  complianceGaps : List FleetComplianceGap
deriving DecidableEq, Repr

/-- `performRiskAssessment`, acting on the merchant's active apps: analyze
each app, count by risk tier (high and critical counted together), average
the scores (guarded for an empty app list), and build the breakdown,
recommendations and gaps. -/
def performRiskAssessment (merchantId : String)
    (apps : List ThirdPartyApp) : AppRiskAssessment :=
  let riskAnalyses := apps.map analyzeAppRisk
  let highRiskApps := (riskAnalyses.filter (fun a =>
    decide (a.riskLevel = .high ∨ a.riskLevel = .critical))).length
  let mediumRiskApps := (riskAnalyses.filter (fun a =>
    decide (a.riskLevel = .medium))).length
  let lowRiskApps := (riskAnalyses.filter (fun a =>
    decide (a.riskLevel = .low))).length
  let totalRiskScore : ℚ :=
    riskAnalyses.foldl (fun sum a => sum + (a.riskScore : ℚ)) 0
  let overallRiskScore : ℚ :=
    if 0 < apps.length then totalRiskScore / (apps.length : ℚ) else 0
  { merchantId := merchantId
    totalApps := apps.length
    highRiskApps := highRiskApps
    mediumRiskApps := mediumRiskApps
    lowRiskApps := lowRiskApps
    overallRiskScore := jsRound overallRiskScore
    riskBreakdown := calculateRiskBreakdown riskAnalyses
    recommendations := generateRecommendations riskAnalyses
    complianceGaps := identifyComplianceGaps riskAnalyses }

/-- C7 (division-by-zero audit at the failing input): with zero applicable
rules the gap analysis returns score 100 and no gaps, and with zero apps the
risk assessment returns all counts 0 and `overallRiskScore = 0` — but every
`riskBreakdown` component is `NaN` (`Math.round(0/0)`, modelled as `none`),
because `calculateRiskBreakdown` divides by `analyses.length` without an
empty guard, contradicting the claimed well-definedness. -/
theorem performRiskAssessment_empty_divisions :
    (performGapAnalysis "merchant-1" [] policyOnlyMerchant 0).overallComplianceScore
        = 100 ∧
    (performGapAnalysis "merchant-1" [] policyOnlyMerchant 0).gaps = [] ∧
    (performRiskAssessment "merchant-1" []).totalApps = 0 ∧
    (performRiskAssessment "merchant-1" []).highRiskApps = 0 ∧
    (performRiskAssessment "merchant-1" []).mediumRiskApps = 0 ∧
    (performRiskAssessment "merchant-1" []).lowRiskApps = 0 ∧
    (performRiskAssessment "merchant-1" []).overallRiskScore = 0 ∧
    (performRiskAssessment "merchant-1" []).riskBreakdown.dataAccess = none ∧
    (performRiskAssessment "merchant-1" []).riskBreakdown.permissions = none ∧
    (performRiskAssessment "merchant-1" []).riskBreakdown.compliance = none ∧
    (performRiskAssessment "merchant-1" []).riskBreakdown.security = none ∧
    (performRiskAssessment "merchant-1" []).riskBreakdown.reputation = none := by
  have hscore : (performGapAnalysis "merchant-1" [] policyOnlyMerchant
      0).overallComplianceScore = 100 := by
    rw [gapAnalysis_score_formula]
    simp
  have hgaps : (performGapAnalysis "merchant-1" [] policyOnlyMerchant 0).gaps
      = [] := by
    rw [gapAnalysis_gaps_eq]
    simp
  have hoverall : (performRiskAssessment "merchant-1" []).overallRiskScore
      = 0 := by
    show jsRound (if 0 < ([] : List ThirdPartyApp).length then _ else 0) = 0
    rw [if_neg (by simp)]
    rw [jsRound_eq_floor, Int.floor_eq_iff]
    norm_num
  have hbd : ∀ w : ℚ, jsRoundOpt (jsDiv
      (([] : List AppRiskAnalysis).foldl (fun sum a => sum + (a.riskScore : ℚ) * w) 0)
      (([] : List AppRiskAnalysis).length : ℚ)) = none := by
    intro w
    simp [jsDiv, jsRoundOpt]
  exact ⟨hscore, hgaps, rfl, rfl, rfl, rfl, hoverall,
    hbd 0.3, hbd 0.25, hbd 0.2, hbd 0.15, hbd 0.1⟩

/-! ## Monitoring health check (`monitoring.service.ts`) -/

/-- One issue entry of a `ComplianceHealthCheck` (`AlertSeverity` shares the
low/medium/high/critical values of `Severity`). -/
structure HealthIssue where
  type : String
  severity : Severity
  description : String
  recommendation : String
deriving DecidableEq, Repr

def msPerDay : Int := 1000 * 60 * 60 * 24

/-- `daysSinceLastAudit`: `Math.floor((now - createdAt) / msPerDay)`, or
`Infinity` (modelled `none`) when no audit exists. -/
def daysSinceLastAudit (lastAuditCreatedAt : Option Int) (now : Int) :
    Option Int :=
  lastAuditCreatedAt.map (fun t => Int.fdiv (now - t) msPerDay)

/-- `d > bound` where `d` may be `Infinity` (`none`). -/
def jsInfGt (d : Option Int) (bound : Int) : Bool :=
  match d with
  | none => true
  | some k => bound < k

def auditOverdueIssue : HealthIssue :=
  { type := "audit_overdue"
    severity := Severity.high
    description := "Compliance audit is overdue"
    recommendation := "Schedule and complete a compliance audit immediately" }

def auditDueSoonIssue : HealthIssue :=
  { type := "audit_due_soon"
    severity := Severity.medium
    description := "Compliance audit due soon"
    recommendation := "Schedule a compliance audit within the next 30 days" }

/-- The staleness branch of `performComplianceHealthCheck`: issues pushed
and points deducted. -/
def stalenessCheck (d : Option Int) : List HealthIssue × Int :=
  if jsInfGt d 90 then ([auditOverdueIssue], 20)
  else if jsInfGt d 60 then ([auditDueSoonIssue], 10)
  else ([], 0)

/-- The pending / overdue data-subject-request branch. -/
def dsrCheck (pendingDSRs overdueCount : Int) : List HealthIssue × Int :=
  if 0 < pendingDSRs then
    if 0 < overdueCount then
      ([{ type := "overdue_dsr"
          severity := Severity.critical
          description := toString overdueCount ++
            " data subject requests are overdue"
          recommendation := "Process overdue data subject requests immediately" }],
       30)
    else if 5 < pendingDSRs then
      ([{ type := "high_pending_dsr"
          severity := Severity.high
          description := toString pendingDSRs ++
            " pending data subject requests"
          recommendation := "Review and process pending requests" }],
       15)
    else ([], 0)
  else ([], 0)

/-- The consent-withdrawal branch. -/
def withdrawalCheck (recentWithdrawals : Int) : List HealthIssue × Int :=
  if 10 < recentWithdrawals then
    ([{ type := "high_consent_withdrawals"
        severity := Severity.medium
        description := toString recentWithdrawals ++
          " consent withdrawals in the last 30 days"
        recommendation := "Review consent collection practices and user experience" }],
     15)
  else ([], 0)

/-- The breach-incident branch. -/
def breachCheck (recentBreaches : Int) : List HealthIssue × Int :=
  if 0 < recentBreaches then
    ([{ type := "recent_breaches"
        severity := Severity.critical
        description := toString recentBreaches ++
          " breach incidents in the last 30 days"
        recommendation :=
          "Review breach response procedures and implement additional security measures" }],
     40)
  else ([], 0)

/-- Result of `performComplianceHealthCheck` (dates in epoch ms). -/
structure ComplianceHealthCheck where
  merchantId : String
  overallScore : Int
  issues : List HealthIssue
  lastAuditDate : Option Int
  nextAuditDue : Int
deriving DecidableEq, Repr

/-- `performComplianceHealthCheck`: start from 100, deduct per branch,
clamp below at 0, and compute the next audit due date. -/
def performComplianceHealthCheck (merchantId : String)
    (lastAuditCreatedAt : Option Int) (now : Int)
    (pendingDSRs overdueDSRs recentWithdrawals recentBreaches : Int) :
    ComplianceHealthCheck :=
  let d := daysSinceLastAudit lastAuditCreatedAt now
  let staleness := stalenessCheck d
  let dsr := dsrCheck pendingDSRs overdueDSRs
  let withdrawals := withdrawalCheck recentWithdrawals
  let breaches := breachCheck recentBreaches
  let overallScore : Int :=
    max 0 (100 - staleness.2 - dsr.2 - withdrawals.2 - breaches.2)
  let nextAuditDue : Int :=
    match lastAuditCreatedAt with
    | some t => t + 90 * msPerDay
    | none => now
  { merchantId := merchantId
    overallScore := overallScore
    issues := staleness.1 ++ dsr.1 ++ withdrawals.1 ++ breaches.1
    lastAuditDate := lastAuditCreatedAt
    nextAuditDue := nextAuditDue }

/-- C8 counterexample: at exactly 60 days since the last audit (the claim's
"range 60 to 90" includes 60) the code raises no staleness issue and keeps
the score at 100, because the branch tests `daysSinceLastAudit > 60`
strictly. -/
theorem healthCheck_day60_no_issue :
    daysSinceLastAudit (some 0) (60 * msPerDay) = some 60 ∧
    (performComplianceHealthCheck "merchant-1" (some 0) (60 * msPerDay)
      0 0 0 0).issues = [] ∧
    (performComplianceHealthCheck "merchant-1" (some 0) (60 * msPerDay)
      0 0 0 0).overallScore = 100 := by
  refine ⟨by decide, by decide, by decide⟩

/-- C8 (amended: the medium band is strictly greater than 60 and at most 90
days; at exactly 60 days no staleness issue is raised): more than 90 days
since the last audit — or no prior audit, treated as infinitely stale —
yields the high `audit_overdue` issue and a deduction of 20; strictly
between 60 and 90 days (inclusive of 90) yields the medium `audit_due_soon`
issue and a deduction of 10; at 60 days or fewer no staleness issue is
raised; the final score is clamped to at least 0; and `nextAuditDue` is the
last audit's date plus 90 days, or the current time when no audit exists. -/
theorem performComplianceHealthCheck_staleness (merchantId : String)
    (last : Option Int) (now p o w b : Int) :
    ((daysSinceLastAudit last now = none ∨
        (∃ k, daysSinceLastAudit last now = some k ∧ 90 < k)) →
      auditOverdueIssue ∈
        (performComplianceHealthCheck merchantId last now p o w b).issues ∧
      (performComplianceHealthCheck merchantId last now p o w b).overallScore =
        max 0 (100 - 20 - (dsrCheck p o).2 - (withdrawalCheck w).2 -
          (breachCheck b).2)) ∧
    ((∃ k, daysSinceLastAudit last now = some k ∧ 60 < k ∧ k ≤ 90) →
      auditDueSoonIssue ∈
        (performComplianceHealthCheck merchantId last now p o w b).issues ∧
      (performComplianceHealthCheck merchantId last now p o w b).overallScore =
        max 0 (100 - 10 - (dsrCheck p o).2 - (withdrawalCheck w).2 -
          (breachCheck b).2)) ∧
    ((∃ k, daysSinceLastAudit last now = some k ∧ k ≤ 60) →
      (performComplianceHealthCheck merchantId last now p o w b).issues =
        (dsrCheck p o).1 ++ (withdrawalCheck w).1 ++ (breachCheck b).1 ∧
      (performComplianceHealthCheck merchantId last now p o w b).overallScore =
        max 0 (100 - (dsrCheck p o).2 - (withdrawalCheck w).2 -
          (breachCheck b).2)) ∧
    (last = none →
      auditOverdueIssue ∈
        (performComplianceHealthCheck merchantId last now p o w b).issues) ∧
    0 ≤ (performComplianceHealthCheck merchantId last now p o w b).overallScore ∧
    (performComplianceHealthCheck merchantId last now p o w b).nextAuditDue =
      (match last with
       | some t => t + 90 * msPerDay
       | none => now) := by
  have hiss : (performComplianceHealthCheck merchantId last now p o w b).issues =
      (stalenessCheck (daysSinceLastAudit last now)).1 ++ (dsrCheck p o).1 ++
        (withdrawalCheck w).1 ++ (breachCheck b).1 := rfl
  have hsc : (performComplianceHealthCheck merchantId last now p o w b).overallScore =
      max 0 (100 - (stalenessCheck (daysSinceLastAudit last now)).2 -
        (dsrCheck p o).2 - (withdrawalCheck w).2 - (breachCheck b).2) := rfl
  have hover : ∀ hd : daysSinceLastAudit last now = none ∨
      (∃ k, daysSinceLastAudit last now = some k ∧ 90 < k),
      stalenessCheck (daysSinceLastAudit last now) = ([auditOverdueIssue], 20) := by
    rintro (hnone | ⟨k, hk, hk90⟩)
    · rw [hnone]; rfl
    · rw [hk]
      simp [stalenessCheck, jsInfGt, hk90]
  refine ⟨?_, ?_, ?_, ?_, ?_, ?_⟩
  · intro hd
    rw [hiss, hsc, hover hd]
    simp
  · rintro ⟨k, hk, hk60, hk90⟩
    have hs : stalenessCheck (daysSinceLastAudit last now) =
        ([auditDueSoonIssue], 10) := by
      rw [hk]
      have h90 : ¬(90 : Int) < k := by omega
      simp [stalenessCheck, jsInfGt, h90, hk60]
    rw [hiss, hsc, hs]
    simp
  · rintro ⟨k, hk, hk60⟩
    have hs : stalenessCheck (daysSinceLastAudit last now) = ([], 0) := by
      rw [hk]
      have h90 : ¬(90 : Int) < k := by omega
      have h60 : ¬(60 : Int) < k := by omega
      simp [stalenessCheck, jsInfGt, h90, h60]
    rw [hiss, hsc, hs]
    constructor
    · simp
    · congr 1
  · intro hnone
    have hd : daysSinceLastAudit last now = none := by rw [hnone]; rfl
    rw [hiss, hover (Or.inl hd)]
    simp
  · rw [hsc]
    exact le_max_left _ _
  · rfl

theorem performComplianceHealthCheck_staleness_witness :
    auditOverdueIssue ∈
      (performComplianceHealthCheck "merchant-1" none 0 0 0 0 0).issues ∧
    (performComplianceHealthCheck "merchant-1" none 0 0 0 0 0).overallScore = 80 := by
  have h := performComplianceHealthCheck_staleness "merchant-1" none 0 0 0 0 0
  have h1 := h.1 (Or.inl rfl)
  refine ⟨h1.1, ?_⟩
  rw [h1.2]
  decide
